import Mathlib

/-!
Shallow embedding of `cpp/tensorrt_llm/common/cudaDriverWrapper.cpp`
(namespace `tensorrt_llm::common`): the CUDA driver binding that opens the
native driver shared library, resolves a fixed table of function-pointer
symbols, and forwards typed calls to them.

Pointers are modelled as `Option Nat` (`none` = null) or, where the code
only tests a pointer against null and prints its address, as `Nat` with `0`
playing the role of the null pointer (matching `reinterpret_cast<uintptr_t>`).
The platform loader (`dlopen`/`dlsym` resp. `LoadLibrary`/`GetProcAddress`,
both outside the repository) is a parameter of the model.
-/

namespace TensorrtLlm.Common

/-- Raw function pointer as returned by `dllGetSym`; `none` models a null
pointer (symbol absent from the installed driver). -/
abbrev SymPtr := Option Nat

/-- Platform dynamic-loading environment visible to the constructor:
the result of `dllOpen(CUDA_LIB_NAME)` and the `dllGetSym` symbol lookup on
that handle. `openHandle = none` models a null handle. -/
structure NativeLibrary where
  openHandle : Option Nat
  getSym : String → SymPtr

/-- The `load_sym` lambda of the constructor: it simply returns
`dllGetSym(handle, name)` with no null check. -/
def load_sym (lib : NativeLibrary) (name : String) : SymPtr :=
  lib.getSym name

/-- The wrapper object after a successful construction: the opaque library
handle plus one function-pointer member per bound driver operation, in the
order the constructor assigns them. -/
structure CUDADriverWrapper where
  handle : Nat
  _cuGetErrorName : SymPtr
  _cuGetErrorString : SymPtr
  _cuFuncSetAttribute : SymPtr
  _cuLinkComplete : SymPtr
  _cuModuleUnload : SymPtr
  _cuLinkDestroy : SymPtr
  _cuModuleLoadData : SymPtr
  _cuLinkCreate : SymPtr
  _cuModuleGetFunction : SymPtr
  _cuModuleGetGlobal : SymPtr
  _cuLibraryGetKernel : SymPtr
  _cuLibraryLoadData : SymPtr
  _cuLibraryGetGlobal : SymPtr
  _cuLibraryUnload : SymPtr
  _cuKernelSetAttribute : SymPtr
  _cuCtxGetDevice : SymPtr
  _cuLinkAddFile : SymPtr
  _cuLinkAddData : SymPtr
  _cuLaunchCooperativeKernel : SymPtr
  _cuLaunchKernel : SymPtr
  _cuLaunchKernelEx : SymPtr
  _cuTensorMapEncodeTiled : SymPtr
  _cuMemcpyDtoH : SymPtr
  _cuDeviceGetAttribute : SymPtr
  _cuOccupancyMaxActiveClusters : SymPtr

/-- Constructor `CUDADriverWrapper::CUDADriverWrapper`. Modelled from the
spec for the part outside `src/`: `TLLM_CHECK_WITH_INFO` (from the missing
header `tensorrt_llm/common/assert.h`) makes the constructing call fail
fatally when its condition is false, so a null `dllOpen` result yields an
error and no instance. On a non-null handle every member is assigned the
result of `load_sym` on its hardcoded exported symbol name, with no
per-symbol null check. -/
def CUDADriverWrapper.construct (lib : NativeLibrary) : Except String CUDADriverWrapper :=
  match lib.openHandle with
  | none => .error "CUDA driver library is not open correctly."
  | some h => .ok
    { handle := h
      _cuGetErrorName := load_sym lib "cuGetErrorName"
      _cuGetErrorString := load_sym lib "cuGetErrorString"
      _cuFuncSetAttribute := load_sym lib "cuFuncSetAttribute"
      _cuLinkComplete := load_sym lib "cuLinkComplete"
      _cuModuleUnload := load_sym lib "cuModuleUnload"
      _cuLinkDestroy := load_sym lib "cuLinkDestroy"
      _cuModuleLoadData := load_sym lib "cuModuleLoadData"
      _cuLinkCreate := load_sym lib "cuLinkCreate_v2"
      _cuModuleGetFunction := load_sym lib "cuModuleGetFunction"
      _cuModuleGetGlobal := load_sym lib "cuModuleGetGlobal_v2"
      _cuLibraryGetKernel := load_sym lib "cuLibraryGetKernel"
      _cuLibraryLoadData := load_sym lib "cuLibraryLoadData"
      _cuLibraryGetGlobal := load_sym lib "cuLibraryGetGlobal"
      _cuLibraryUnload := load_sym lib "cuLibraryUnload"
      _cuKernelSetAttribute := load_sym lib "cuKernelSetAttribute"
      _cuCtxGetDevice := load_sym lib "cuCtxGetDevice"
      _cuLinkAddFile := load_sym lib "cuLinkAddFile_v2"
      _cuLinkAddData := load_sym lib "cuLinkAddData_v2"
      _cuLaunchCooperativeKernel := load_sym lib "cuLaunchCooperativeKernel"
      _cuLaunchKernel := load_sym lib "cuLaunchKernel"
      _cuLaunchKernelEx := load_sym lib "cuLaunchKernelEx"
      _cuTensorMapEncodeTiled := load_sym lib "cuTensorMapEncodeTiled"
      _cuMemcpyDtoH := load_sym lib "cuMemcpyDtoH_v2"
      _cuDeviceGetAttribute := load_sym lib "cuDeviceGetAttribute"
      _cuOccupancyMaxActiveClusters := load_sym lib "cuOccupancyMaxActiveClusters" }

/-- The fixed logical-operation → exported-symbol-name pairs resolved by the
constructor, in assignment order. -/
def symbolBindings : List (String × String) :=
  [("cuGetErrorName", "cuGetErrorName"),
   ("cuGetErrorString", "cuGetErrorString"),
   ("cuFuncSetAttribute", "cuFuncSetAttribute"),
   ("cuLinkComplete", "cuLinkComplete"),
   ("cuModuleUnload", "cuModuleUnload"),
   ("cuLinkDestroy", "cuLinkDestroy"),
   ("cuModuleLoadData", "cuModuleLoadData"),
   ("cuLinkCreate", "cuLinkCreate_v2"),
   ("cuModuleGetFunction", "cuModuleGetFunction"),
   ("cuModuleGetGlobal", "cuModuleGetGlobal_v2"),
   ("cuLibraryGetKernel", "cuLibraryGetKernel"),
   ("cuLibraryLoadData", "cuLibraryLoadData"),
   ("cuLibraryGetGlobal", "cuLibraryGetGlobal"),
   ("cuLibraryUnload", "cuLibraryUnload"),
   ("cuKernelSetAttribute", "cuKernelSetAttribute"),
   ("cuCtxGetDevice", "cuCtxGetDevice"),
   ("cuLinkAddFile", "cuLinkAddFile_v2"),
   ("cuLinkAddData", "cuLinkAddData_v2"),
   ("cuLaunchCooperativeKernel", "cuLaunchCooperativeKernel"),
   ("cuLaunchKernel", "cuLaunchKernel"),
   ("cuLaunchKernelEx", "cuLaunchKernelEx"),
   ("cuTensorMapEncodeTiled", "cuTensorMapEncodeTiled"),
   ("cuMemcpyDtoH", "cuMemcpyDtoH_v2"),
   ("cuDeviceGetAttribute", "cuDeviceGetAttribute"),
   ("cuOccupancyMaxActiveClusters", "cuOccupancyMaxActiveClusters")]

/-- Looks up the wrapper member that stores the resolved pointer for a
logical operation name. -/
def CUDADriverWrapper.slot (w : CUDADriverWrapper) (logical : String) : Option SymPtr :=
  if logical = "cuGetErrorName" then some w._cuGetErrorName
  else if logical = "cuGetErrorString" then some w._cuGetErrorString
  else if logical = "cuFuncSetAttribute" then some w._cuFuncSetAttribute
  else if logical = "cuLinkComplete" then some w._cuLinkComplete
  else if logical = "cuModuleUnload" then some w._cuModuleUnload
  else if logical = "cuLinkDestroy" then some w._cuLinkDestroy
  else if logical = "cuModuleLoadData" then some w._cuModuleLoadData
  else if logical = "cuLinkCreate" then some w._cuLinkCreate
  else if logical = "cuModuleGetFunction" then some w._cuModuleGetFunction
  else if logical = "cuModuleGetGlobal" then some w._cuModuleGetGlobal
  else if logical = "cuLibraryGetKernel" then some w._cuLibraryGetKernel
  else if logical = "cuLibraryLoadData" then some w._cuLibraryLoadData
  else if logical = "cuLibraryGetGlobal" then some w._cuLibraryGetGlobal
  else if logical = "cuLibraryUnload" then some w._cuLibraryUnload
  else if logical = "cuKernelSetAttribute" then some w._cuKernelSetAttribute
  else if logical = "cuCtxGetDevice" then some w._cuCtxGetDevice
  else if logical = "cuLinkAddFile" then some w._cuLinkAddFile
  else if logical = "cuLinkAddData" then some w._cuLinkAddData
  else if logical = "cuLaunchCooperativeKernel" then some w._cuLaunchCooperativeKernel
  else if logical = "cuLaunchKernel" then some w._cuLaunchKernel
  else if logical = "cuLaunchKernelEx" then some w._cuLaunchKernelEx
  else if logical = "cuTensorMapEncodeTiled" then some w._cuTensorMapEncodeTiled
  else if logical = "cuMemcpyDtoH" then some w._cuMemcpyDtoH
  else if logical = "cuDeviceGetAttribute" then some w._cuDeviceGetAttribute
  else if logical = "cuOccupancyMaxActiveClusters" then some w._cuOccupancyMaxActiveClusters
  else none

/-- The five logical operations whose exported symbol carries an ABI version
suffix. -/
def versionSuffixedOps : List String :=
  ["cuLinkCreate", "cuModuleGetGlobal", "cuLinkAddFile", "cuLinkAddData", "cuMemcpyDtoH"]

/-- Generic pointer-typed argument (`void**`, `char const**`, ...): a raw
address, `0` playing the role of the null pointer. -/
abbrev Addr := Nat

/-- CUDA driver handle and scalar argument types; all opaque values to the
binding, which never inspects them. -/
abbrev CUresult := Nat

abbrev CUfunction := Nat

abbrev CUmodule := Nat

abbrev CUlinkState := Nat

abbrev CUdeviceptr := Nat

abbrev CUlibrary := Nat

abbrev CUkernel := Nat

abbrev CUdevice := Nat

abbrev CUstream := Nat

abbrev CUfunction_attribute := Nat

abbrev CUdevice_attribute := Nat

abbrev CUjitInputType := Nat

abbrev CUtensorMapDataType := Nat

abbrev CUtensorMapInterleave := Nat

abbrev CUtensorMapSwizzle := Nat

abbrev CUtensorMapL2promotion := Nat

abbrev CUtensorMapFloatOOBfill := Nat

abbrev Cuuint32 := Nat

abbrev Cuuint64 := Nat

/-- One field of `CUlaunchAttribute::value` (a C union; the trace reads the
`clusterDim` view for the cluster-dimension attribute id and the `priority`
view for the priority attribute id). -/
structure CUlaunchAttributeValue where
  clusterDimX : Nat
  clusterDimY : Nat
  clusterDimZ : Nat
  priority : Int
deriving DecidableEq, Repr

/-- A launch attribute: numeric attribute id plus its value union. -/
structure CUlaunchAttribute where
  id : Nat
  value : CUlaunchAttributeValue
deriving DecidableEq, Repr

/-- Modelled from the spec: numeric value of the driver-header constant
`CU_LAUNCH_ATTRIBUTE_CLUSTER_DIMENSION` (cuda.h is not part of this
repository). -/
def CU_LAUNCH_ATTRIBUTE_CLUSTER_DIMENSION : Nat := 4

/-- Modelled from the spec: numeric value of the driver-header constant
`CU_LAUNCH_ATTRIBUTE_PRIORITY` (cuda.h is not part of this repository). -/
def CU_LAUNCH_ATTRIBUTE_PRIORITY : Nat := 8

/-- The `CUlaunchConfig` struct as read by this file: grid and block
dimensions, shared-memory byte count, stream handle (`0` = null = default
stream) and the attribute array (`numAttrs` = `attrs.length`). -/
structure CUlaunchConfig where
  gridDimX : Nat
  gridDimY : Nat
  gridDimZ : Nat
  blockDimX : Nat
  blockDimY : Nat
  blockDimZ : Nat
  sharedMemBytes : Nat
  hStream : CUstream
  attrs : List CUlaunchAttribute
deriving DecidableEq, Repr

/-- Lowercase hexadecimal rendering of an unsigned value, as `operator<<`
renders integers after the `std::hex` manipulator. -/
def hexStr (n : Nat) : String :=
  String.mk (Nat.toDigits 16 n)

/-- Rendering of a signed 32-bit `int` under the hex basefield: `num_put`
converts the value to the corresponding unsigned type first, so a negative
value prints as its 32-bit two's-complement residue. -/
def intHexStr (i : Int) : String :=
  hexStr ((i % (2 ^ 32)).toNat)

/-- Line `Grid Dimensions: (x, y, z)` of the trace; inserted while the
stream's basefield is still the default decimal. -/
def gridLine (c : CUlaunchConfig) : String :=
  "Grid Dimensions: (" ++ toString c.gridDimX ++ ", " ++ toString c.gridDimY ++ ", "
    ++ toString c.gridDimZ ++ ")\n"

/-- Line `Block Dimensions: (x, y, z)` of the trace (decimal basefield). -/
def blockLine (c : CUlaunchConfig) : String :=
  "Block Dimensions: (" ++ toString c.blockDimX ++ ", " ++ toString c.blockDimY ++ ", "
    ++ toString c.blockDimZ ++ ")\n"

/-- Line `Shared Memory: n bytes` of the trace (decimal basefield). -/
def sharedMemLine (c : CUlaunchConfig) : String :=
  "Shared Memory: " ++ toString c.sharedMemBytes ++ " bytes\n"

/-- Line `Stream: Custom|Default (0x...)`: the source tests the stream
handle against null and prints its address after inserting `std::hex`. -/
def streamLine (c : CUlaunchConfig) : String :=
  "Stream: " ++ (if c.hStream != 0 then "Custom" else "Default") ++ " (0x"
    ++ hexStr c.hStream ++ ")\n"

/-- Line `Attributes (n):`. The `std::hex` manipulator inserted for the
stream address is sticky, so the attribute count (and every integer after
it) renders in hexadecimal. -/
def attrsCountLine (c : CUlaunchConfig) : String :=
  "Attributes (" ++ hexStr c.attrs.length ++ "):\n"

/-- The switch on `attr.id` inside the attribute loop: cluster dimension,
priority, or the unknown-attribute fallback (basefield is hex here). -/
def attrBody (attr : CUlaunchAttribute) : String :=
  if attr.id = CU_LAUNCH_ATTRIBUTE_CLUSTER_DIMENSION then
    "Cluster Dimension: (" ++ hexStr attr.value.clusterDimX ++ ", "
      ++ hexStr attr.value.clusterDimY ++ ", " ++ hexStr attr.value.clusterDimZ ++ ")"
  else if attr.id = CU_LAUNCH_ATTRIBUTE_PRIORITY then
    "Priority: " ++ intHexStr attr.value.priority
  else
    "Unknown Attribute (ID=" ++ hexStr attr.id ++ ")"

/-- One iteration of the attribute loop: `  [i] ` prefix (loop index in the
hex basefield), the id-switch body, then a newline. -/
def attrLine (i : Nat) (attr : CUlaunchAttribute) : String :=
  "  [" ++ hexStr i ++ "] " ++ attrBody attr ++ "\n"

/-- The attribute loop `for (uint i = 0; i < numAttrs; ++i)`, started at
loop counter `i`. -/
def attrLinesFrom : Nat → List CUlaunchAttribute → String
  | _, [] => ""
  | i, a :: rest => attrLine i a ++ attrLinesFrom (i + 1) rest

/-- The anonymous-namespace helper `stringify_launch_config`. -/
def stringify_launch_config (c : CUlaunchConfig) : String :=
  gridLine c ++ (blockLine c ++ (sharedMemLine c ++ (streamLine c
    ++ (attrsCountLine c ++ attrLinesFrom 0 c.attrs))))

/-- A wrapper whose symbol table holds stub implementations: each member
function pointer is an arbitrary function from that operation's argument
tuple to a result code. The forwarding methods below are the bodies of the
corresponding `CUDADriverWrapper::cu...` methods, verbatim. -/
structure StubbedWrapper where
  _cuGetErrorName : CUresult → Addr → CUresult
  _cuGetErrorString : CUresult → Addr → CUresult
  _cuFuncSetAttribute : CUfunction → CUfunction_attribute → Int → CUresult
  _cuLinkComplete : CUlinkState → Addr → Addr → CUresult
  _cuModuleUnload : CUmodule → CUresult
  _cuLinkDestroy : CUlinkState → CUresult
  _cuModuleLoadData : Addr → Addr → CUresult
  _cuLinkCreate : Nat → Addr → Addr → Addr → CUresult
  _cuModuleGetFunction : Addr → CUmodule → Addr → CUresult
  _cuModuleGetGlobal : Addr → Addr → CUmodule → Addr → CUresult
  _cuLibraryGetKernel : Addr → CUlibrary → Addr → CUresult
  _cuLibraryLoadData : Addr → Addr → Addr → Addr → Nat → Addr → Addr → Nat → CUresult
  _cuLibraryGetGlobal : Addr → Addr → CUlibrary → Addr → CUresult
  _cuLibraryUnload : CUlibrary → CUresult
  _cuKernelSetAttribute : CUfunction_attribute → Int → CUkernel → CUdevice → CUresult
  _cuCtxGetDevice : Addr → CUresult
  _cuLinkAddFile : CUlinkState → CUjitInputType → Addr → Nat → Addr → Addr → CUresult
  _cuLinkAddData : CUlinkState → CUjitInputType → Addr → Nat → Addr → Nat → Addr → Addr → CUresult
  _cuLaunchCooperativeKernel : CUfunction → Nat → Nat → Nat → Nat → Nat → Nat → Nat → CUstream → Addr → CUresult
  _cuLaunchKernel : CUfunction → Nat → Nat → Nat → Nat → Nat → Nat → Nat → CUstream → Addr → Addr → CUresult
  _cuLaunchKernelEx : CUlaunchConfig → CUfunction → Addr → Addr → CUresult
  _cuTensorMapEncodeTiled : Addr → CUtensorMapDataType → Cuuint32 → Addr → Addr → Addr → Addr → Addr → CUtensorMapInterleave → CUtensorMapSwizzle → CUtensorMapL2promotion → CUtensorMapFloatOOBfill → CUresult
  _cuMemcpyDtoH : Addr → CUdeviceptr → Nat → CUresult
  _cuDeviceGetAttribute : Addr → CUdevice_attribute → CUdevice → CUresult
  _cuOccupancyMaxActiveClusters : Addr → CUfunction → CUlaunchConfig → CUresult

/-- Forwarding method `CUDADriverWrapper::cuGetErrorName`. -/
def StubbedWrapper.cuGetErrorName (w : StubbedWrapper) (error : CUresult) (pStr : Addr) : CUresult :=
  w._cuGetErrorName error pStr

/-- Forwarding method `CUDADriverWrapper::cuGetErrorString`. -/
def StubbedWrapper.cuGetErrorString (w : StubbedWrapper) (error : CUresult) (pStr : Addr) : CUresult :=
  w._cuGetErrorString error pStr

/-- Forwarding method `CUDADriverWrapper::cuFuncSetAttribute`. -/
def StubbedWrapper.cuFuncSetAttribute (w : StubbedWrapper) (hfunc : CUfunction) (attrib : CUfunction_attribute) (value : Int) : CUresult :=
  w._cuFuncSetAttribute hfunc attrib value

/-- Forwarding method `CUDADriverWrapper::cuLinkComplete`. -/
def StubbedWrapper.cuLinkComplete (w : StubbedWrapper) (state : CUlinkState) (cubinOut : Addr) (sizeOut : Addr) : CUresult :=
  w._cuLinkComplete state cubinOut sizeOut

/-- Forwarding method `CUDADriverWrapper::cuModuleUnload`. -/
def StubbedWrapper.cuModuleUnload (w : StubbedWrapper) (hmod : CUmodule) : CUresult :=
  w._cuModuleUnload hmod

/-- Forwarding method `CUDADriverWrapper::cuLinkDestroy`. -/
def StubbedWrapper.cuLinkDestroy (w : StubbedWrapper) (state : CUlinkState) : CUresult :=
  w._cuLinkDestroy state

/-- Forwarding method `CUDADriverWrapper::cuModuleLoadData`. -/
def StubbedWrapper.cuModuleLoadData (w : StubbedWrapper) (module : Addr) (image : Addr) : CUresult :=
  w._cuModuleLoadData module image

/-- Forwarding method `CUDADriverWrapper::cuLinkCreate`. -/
def StubbedWrapper.cuLinkCreate (w : StubbedWrapper) (numOptions : Nat) (options : Addr) (optionValues : Addr) (stateOut : Addr) : CUresult :=
  w._cuLinkCreate numOptions options optionValues stateOut

/-- Forwarding method `CUDADriverWrapper::cuModuleGetFunction`. -/
def StubbedWrapper.cuModuleGetFunction (w : StubbedWrapper) (hfunc : Addr) (hmod : CUmodule) (name : Addr) : CUresult :=
  w._cuModuleGetFunction hfunc hmod name

/-- Forwarding method `CUDADriverWrapper::cuModuleGetGlobal`. -/
def StubbedWrapper.cuModuleGetGlobal (w : StubbedWrapper) (dptr : Addr) (bytes : Addr) (hmod : CUmodule) (name : Addr) : CUresult :=
  w._cuModuleGetGlobal dptr bytes hmod name

/-- Forwarding method `CUDADriverWrapper::cuLibraryGetKernel`. -/
def StubbedWrapper.cuLibraryGetKernel (w : StubbedWrapper) (pKernel : Addr) (library : CUlibrary) (name : Addr) : CUresult :=
  w._cuLibraryGetKernel pKernel library name

/-- Forwarding method `CUDADriverWrapper::cuLibraryLoadData`. -/
def StubbedWrapper.cuLibraryLoadData (w : StubbedWrapper) (library : Addr) (code : Addr) (jitOptions : Addr) (jitOptionsValues : Addr) (numJitOptions : Nat) (libraryOptions : Addr) (libraryOptionValues : Addr) (numLibraryOptions : Nat) : CUresult :=
  w._cuLibraryLoadData library code jitOptions jitOptionsValues numJitOptions libraryOptions libraryOptionValues numLibraryOptions

/-- Forwarding method `CUDADriverWrapper::cuLibraryGetGlobal`. -/
def StubbedWrapper.cuLibraryGetGlobal (w : StubbedWrapper) (dptr : Addr) (bytes : Addr) (library : CUlibrary) (name : Addr) : CUresult :=
  w._cuLibraryGetGlobal dptr bytes library name

/-- Forwarding method `CUDADriverWrapper::cuLibraryUnload`. -/
def StubbedWrapper.cuLibraryUnload (w : StubbedWrapper) (library : CUlibrary) : CUresult :=
  w._cuLibraryUnload library

/-- Forwarding method `CUDADriverWrapper::cuKernelSetAttribute`. -/
def StubbedWrapper.cuKernelSetAttribute (w : StubbedWrapper) (attrib : CUfunction_attribute) (val : Int) (kernel : CUkernel) (dev : CUdevice) : CUresult :=
  w._cuKernelSetAttribute attrib val kernel dev

/-- Forwarding method `CUDADriverWrapper::cuCtxGetDevice`. -/
def StubbedWrapper.cuCtxGetDevice (w : StubbedWrapper) (device : Addr) : CUresult :=
  w._cuCtxGetDevice device

/-- Forwarding method `CUDADriverWrapper::cuLinkAddFile`. -/
def StubbedWrapper.cuLinkAddFile (w : StubbedWrapper) (state : CUlinkState) (type : CUjitInputType) (path : Addr) (numOptions : Nat) (options : Addr) (optionValues : Addr) : CUresult :=
  w._cuLinkAddFile state type path numOptions options optionValues

/-- Forwarding method `CUDADriverWrapper::cuLinkAddData`. -/
def StubbedWrapper.cuLinkAddData (w : StubbedWrapper) (state : CUlinkState) (type : CUjitInputType) (data : Addr) (size : Nat) (name : Addr) (numOptions : Nat) (options : Addr) (optionValues : Addr) : CUresult :=
  w._cuLinkAddData state type data size name numOptions options optionValues

/-- Forwarding method `CUDADriverWrapper::cuLaunchCooperativeKernel`. -/
def StubbedWrapper.cuLaunchCooperativeKernel (w : StubbedWrapper) (f : CUfunction) (gridDimX gridDimY gridDimZ blockDimX blockDimY blockDimZ sharedMemBytes : Nat) (hStream : CUstream) (kernelParams : Addr) : CUresult :=
  w._cuLaunchCooperativeKernel f gridDimX gridDimY gridDimZ blockDimX blockDimY blockDimZ sharedMemBytes hStream kernelParams

/-- Forwarding method `CUDADriverWrapper::cuLaunchKernel`. -/
def StubbedWrapper.cuLaunchKernel (w : StubbedWrapper) (f : CUfunction) (gridDimX gridDimY gridDimZ blockDimX blockDimY blockDimZ sharedMemBytes : Nat) (hStream : CUstream) (kernelParams : Addr) (extra : Addr) : CUresult :=
  w._cuLaunchKernel f gridDimX gridDimY gridDimZ blockDimX blockDimY blockDimZ sharedMemBytes hStream kernelParams extra

/-- Forwarding method `CUDADriverWrapper::cuTensorMapEncodeTiled`. -/
def StubbedWrapper.cuTensorMapEncodeTiled (w : StubbedWrapper) (tensorMap : Addr) (tensorDataType : CUtensorMapDataType) (tensorRank : Cuuint32) (globalAddress : Addr) (globalDim : Addr) (globalStrides : Addr) (boxDim : Addr) (elementStrides : Addr) (interleave : CUtensorMapInterleave) (swizzle : CUtensorMapSwizzle) (l2Promotion : CUtensorMapL2promotion) (oobFill : CUtensorMapFloatOOBfill) : CUresult :=
  w._cuTensorMapEncodeTiled tensorMap tensorDataType tensorRank globalAddress globalDim globalStrides boxDim elementStrides interleave swizzle l2Promotion oobFill

/-- Forwarding method `CUDADriverWrapper::cuMemcpyDtoH`. -/
def StubbedWrapper.cuMemcpyDtoH (w : StubbedWrapper) (dstHost : Addr) (srcDevice : CUdeviceptr) (ByteCount : Nat) : CUresult :=
  w._cuMemcpyDtoH dstHost srcDevice ByteCount

/-- Forwarding method `CUDADriverWrapper::cuDeviceGetAttribute`. -/
def StubbedWrapper.cuDeviceGetAttribute (w : StubbedWrapper) (pi : Addr) (attrib : CUdevice_attribute) (dev : CUdevice) : CUresult :=
  w._cuDeviceGetAttribute pi attrib dev

/-- Forwarding method `CUDADriverWrapper::cuOccupancyMaxActiveClusters`. -/
def StubbedWrapper.cuOccupancyMaxActiveClusters (w : StubbedWrapper) (maxActiveClusters : Addr) (f : CUfunction) (config : CUlaunchConfig) : CUresult :=
  w._cuOccupancyMaxActiveClusters maxActiveClusters f config

/-- Observable steps taken by `cuLaunchKernelEx` before and including the
forwarded native call. -/
inductive LaunchEvent where
  | logTrace (s : String)
  | assertFail (msg : String)
  | nativeCall (config : CUlaunchConfig) (f : CUfunction) (kernelParams : Addr) (extra : Addr)
deriving DecidableEq, Repr

/-- The `TLLM_CHECK_DEBUG_WITH_INFO` condition in `cuLaunchKernelEx`:
`(extra != nullptr) != (kernelParams != nullptr)`. -/
def launchExCondition (kernelParams extra : Addr) : Bool :=
  (extra != 0) != (kernelParams != 0)

/-- Method `CUDADriverWrapper::cuLaunchKernelEx`, as a trace of its
observable steps plus its return value. Modelled from the spec for the two
macros whose headers are outside `src/`: `TLLM_LOG_DEBUG` emits the launch
configuration trace (an observability side channel), and
`TLLM_CHECK_DEBUG_WITH_INFO` is compiled only under a debug build
configuration (`debug = true`) and fires when its condition is false,
aborting before the native call; in release builds it is unenforced. -/
def StubbedWrapper.cuLaunchKernelEx (w : StubbedWrapper) (debug : Bool) (config : CUlaunchConfig) (f : CUfunction) (kernelParams : Addr) (extra : Addr) : List LaunchEvent × Option CUresult :=
  let logEv := LaunchEvent.logTrace (stringify_launch_config config)
  if debug && !launchExCondition kernelParams extra then
    ([logEv, .assertFail "Exactly one of 'extra' and 'kernelParams' should be set."], none)
  else
    ([logEv, .nativeCall config f kernelParams extra],
      some (w._cuLaunchKernelEx config f kernelParams extra))

/-- Whether a debug-assertion failure occurs in an event trace. -/
def hasAssertFail (evs : List LaunchEvent) : Bool :=
  evs.any fun e => match e with
    | .assertFail _ => true
    | _ => false

/-- Program counter of one thread running `CUDADriverWrapper::getInstance`:
the optimistic unlocked `instance.lock()` read, waiting on the static mutex,
the lock-protected re-check, the construction, and return with the obtained
instance. -/
inductive GIPc where
  | start
  | waitLock
  | lockedCheck
  | constructing
  | done (id : Nat)
deriving DecidableEq, Repr

/-- Interleaving-semantics state for `n` threads in their first call to
`getInstance`: per-thread program counter, the static `mutex` (holder, if
any), the static `weak_ptr` (`inst = some id` while instance `id` is alive —
in this first-use scenario every caller retains its `shared_ptr`, so the
instance never dies once constructed), and the number of constructions
(each construction is one `dllOpen`). `weak_ptr::lock` and the mutex are
std-library collaborators modelled operationally; their control blocks make
the unlocked read well-defined. -/
structure GIState (n : Nat) where
  pc : Fin n → GIPc
  mtx : Option (Fin n)
  inst : Option Nat
  constructions : Nat

/-- Initial state: no instance yet, mutex free, every thread about to make
its first call. -/
def GIState.init (n : Nat) : GIState n :=
  { pc := fun _ => .start, mtx := none, inst := none, constructions := 0 }

/-- One interleaved step of `getInstance`, by any thread. -/
inductive GIStep {n : Nat} : GIState n → GIState n → Prop where
  | fastHit (s : GIState n) (t : Fin n) (id : Nat) :
      s.pc t = .start → s.inst = some id →
      GIStep s { s with pc := Function.update s.pc t (.done id) }
  | fastMiss (s : GIState n) (t : Fin n) :
      s.pc t = .start → s.inst = none →
      GIStep s { s with pc := Function.update s.pc t .waitLock }
  | acquire (s : GIState n) (t : Fin n) :
      s.pc t = .waitLock → s.mtx = none →
      GIStep s { s with pc := Function.update s.pc t .lockedCheck, mtx := some t }
  | recheckHit (s : GIState n) (t : Fin n) (id : Nat) :
      s.pc t = .lockedCheck → s.mtx = some t → s.inst = some id →
      GIStep s { s with pc := Function.update s.pc t (.done id), mtx := none }
  | recheckMiss (s : GIState n) (t : Fin n) :
      s.pc t = .lockedCheck → s.mtx = some t → s.inst = none →
      GIStep s { s with pc := Function.update s.pc t .constructing }
  | construct (s : GIState n) (t : Fin n) :
      s.pc t = .constructing → s.mtx = some t →
      GIStep s { s with pc := Function.update s.pc t (.done s.constructions),
                        mtx := none,
                        inst := some s.constructions,
                        constructions := s.constructions + 1 }

/-- States reachable from the all-threads-first-call initial state. -/
def GIReachable {n : Nat} (s : GIState n) : Prop :=
  Relation.ReflTransGen GIStep (GIState.init n) s

/-- Inductive invariant of the `getInstance` interleaving model. -/
structure GIInv {n : Nat} (s : GIState n) : Prop where
  lockOwner : ∀ t, (s.pc t = .lockedCheck ∨ s.pc t = .constructing) → s.mtx = some t
  constructingNone : ∀ t, s.pc t = .constructing → s.inst = none
  count : s.constructions = (if s.inst.isSome then 1 else 0)
  doneInst : ∀ t id, s.pc t = .done id → s.inst = some id

/-- Modelled lifecycle state of the singleton across an arbitrary sequence
of `getInstance` calls and `shared_ptr` reference drops (sequential view of
C8's scenario): fresh-id counter, the live instance with its strong
reference count, the list of closed handles (`dllClose` events,
by instance id), and the number of `dllOpen` calls. -/
structure SingletonState where
  nextId : Nat
  alive : Option (Nat × Nat)
  closes : List Nat
  opens : Nat
deriving DecidableEq, Repr

/-- Process start: no instance ever constructed. -/
def SingletonState.init : SingletonState :=
  { nextId := 0, alive := none, closes := [], opens := 0 }

/-- Sequential `getInstance`: `weak_ptr::lock` succeeds iff the instance is
alive (returning a new strong reference to it); otherwise
`new CUDADriverWrapper()` runs — one `dllOpen` plus the full symbol
resolution of `CUDADriverWrapper.construct` — and the `weak_ptr` is reseated
to the fresh instance. -/
def getInstanceSeq (s : SingletonState) : SingletonState × Nat :=
  match s.alive with
  | some (id, rc) => ({ s with alive := some (id, rc + 1) }, id)
  | none =>
    ({ s with alive := some (s.nextId, 1), nextId := s.nextId + 1, opens := s.opens + 1 },
      s.nextId)

/-- Dropping one `shared_ptr` reference; when the last strong reference is
dropped the destructor `~CUDADriverWrapper` runs, which is exactly
`dllClose(handle)`. -/
def releaseRef (s : SingletonState) : SingletonState :=
  match s.alive with
  | some (id, rc) =>
    if rc ≤ 1 then { s with alive := none, closes := s.closes ++ [id] }
    else { s with alive := some (id, rc - 1) }
  | none => s

/-- A caller-driven lifecycle event. -/
inductive SingletonOp where
  | get
  | release
deriving DecidableEq, Repr

/-- Applies one lifecycle event. -/
def applyOp (s : SingletonState) (op : SingletonOp) : SingletonState :=
  match op with
  | .get => (getInstanceSeq s).1
  | .release => releaseRef s

/-- Runs a sequence of lifecycle events from process start. -/
def execOps (ops : List SingletonOp) : SingletonState :=
  ops.foldl applyOp SingletonState.init

/-- Inductive invariant of the singleton lifecycle model. -/
structure SInv (s : SingletonState) : Prop where
  aliveFresh : ∀ id rc, s.alive = some (id, rc) → id < s.nextId ∧ id ∉ s.closes ∧ 0 < rc
  closesNodup : s.closes.Nodup
  closesLt : ∀ j ∈ s.closes, j < s.nextId

/-- An environment whose `dllOpen` returns a null handle. -/
def nullOpenLib : NativeLibrary :=
  { openHandle := none, getSym := fun _ => none }

/-- An environment whose `dllOpen` succeeds but where every `dllGetSym`
lookup returns a null pointer (a driver missing the requested symbols). -/
def openNoSymsLib : NativeLibrary :=
  { openHandle := some 1, getSym := fun _ => none }

/-- C3: if opening the native driver shared library returns a null handle,
the constructor fails fatally via the process-level assertion with no retry
or fallback, and no wrapper instance is produced. -/
theorem construct_fails_on_null_handle (lib : NativeLibrary)
    (h : lib.openHandle = none) :
    CUDADriverWrapper.construct lib
      = .error "CUDA driver library is not open correctly." := by
  unfold CUDADriverWrapper.construct
  rw [h]

/-- Witness for C3 at the concrete null-handle environment. -/
theorem construct_fails_on_null_handle_witness :
    CUDADriverWrapper.construct nullOpenLib
      = .error "CUDA driver library is not open correctly." :=
  construct_fails_on_null_handle nullOpenLib rfl

/-- C1 counterexample: for an environment whose library opens but exports
none of the requested symbols, construction succeeds while the stored
`cuLaunchKernel` function pointer is null — a successfully constructed
instance with a non-fully-populated (null-containing) symbol table. -/
theorem construct_succeeds_with_null_symbol :
    (CUDADriverWrapper.construct openNoSymsLib).isOk = true
      ∧ (CUDADriverWrapper.construct openNoSymsLib).toOption.map
          (fun w => w._cuLaunchKernel) = some none :=
  ⟨rfl, rfl⟩

/-- C1 (amended): after the constructor returns successfully, every slot of
the symbol table has been eagerly assigned the loader's resolution of its
fixed exported name (all symbols resolved during construction, no lazy
per-symbol binding), and construction fails fast exactly on a null library
handle; an individual resolved pointer may however be null when the symbol
is absent. -/
theorem construct_populates_every_slot (lib : NativeLibrary) (w : CUDADriverWrapper)
    (h : CUDADriverWrapper.construct lib = .ok w) :
    (∃ hd, lib.openHandle = some hd ∧ w.handle = hd)
    ∧ w._cuGetErrorName = lib.getSym "cuGetErrorName"
    ∧ w._cuGetErrorString = lib.getSym "cuGetErrorString"
    ∧ w._cuFuncSetAttribute = lib.getSym "cuFuncSetAttribute"
    ∧ w._cuLinkComplete = lib.getSym "cuLinkComplete"
    ∧ w._cuModuleUnload = lib.getSym "cuModuleUnload"
    ∧ w._cuLinkDestroy = lib.getSym "cuLinkDestroy"
    ∧ w._cuModuleLoadData = lib.getSym "cuModuleLoadData"
    ∧ w._cuLinkCreate = lib.getSym "cuLinkCreate_v2"
    ∧ w._cuModuleGetFunction = lib.getSym "cuModuleGetFunction"
    ∧ w._cuModuleGetGlobal = lib.getSym "cuModuleGetGlobal_v2"
    ∧ w._cuLibraryGetKernel = lib.getSym "cuLibraryGetKernel"
    ∧ w._cuLibraryLoadData = lib.getSym "cuLibraryLoadData"
    ∧ w._cuLibraryGetGlobal = lib.getSym "cuLibraryGetGlobal"
    ∧ w._cuLibraryUnload = lib.getSym "cuLibraryUnload"
    ∧ w._cuKernelSetAttribute = lib.getSym "cuKernelSetAttribute"
    ∧ w._cuCtxGetDevice = lib.getSym "cuCtxGetDevice"
    ∧ w._cuLinkAddFile = lib.getSym "cuLinkAddFile_v2"
    ∧ w._cuLinkAddData = lib.getSym "cuLinkAddData_v2"
    ∧ w._cuLaunchCooperativeKernel = lib.getSym "cuLaunchCooperativeKernel"
    ∧ w._cuLaunchKernel = lib.getSym "cuLaunchKernel"
    ∧ w._cuLaunchKernelEx = lib.getSym "cuLaunchKernelEx"
    ∧ w._cuTensorMapEncodeTiled = lib.getSym "cuTensorMapEncodeTiled"
    ∧ w._cuMemcpyDtoH = lib.getSym "cuMemcpyDtoH_v2"
    ∧ w._cuDeviceGetAttribute = lib.getSym "cuDeviceGetAttribute"
    ∧ w._cuOccupancyMaxActiveClusters = lib.getSym "cuOccupancyMaxActiveClusters" := by
  unfold CUDADriverWrapper.construct at h
  cases hlib : lib.openHandle with
  | none => rw [hlib] at h; exact absurd h (by simp)
  | some hd =>
    rw [hlib] at h
    have hw := (Except.ok.injEq _ _).mp h
    subst hw
    exact ⟨⟨hd, rfl, rfl⟩, rfl, rfl, rfl, rfl, rfl, rfl, rfl, rfl, rfl, rfl, rfl, rfl,
      rfl, rfl, rfl, rfl, rfl, rfl, rfl, rfl, rfl, rfl, rfl, rfl, rfl⟩

/-- Witness for the amended C1 at a concrete environment. -/
theorem construct_populates_every_slot_witness :
    (∃ hd, openNoSymsLib.openHandle = some hd
        ∧ ((CUDADriverWrapper.construct openNoSymsLib).toOption.map
            (fun w => w.handle)) = some hd)
    ∧ (CUDADriverWrapper.construct openNoSymsLib).toOption.map
        (fun w => w._cuMemcpyDtoH) = some (openNoSymsLib.getSym "cuMemcpyDtoH_v2") := by
  obtain ⟨⟨hd, h1, h2⟩, hrest⟩ := construct_populates_every_slot openNoSymsLib
    { handle := 1
      _cuGetErrorName := none, _cuGetErrorString := none, _cuFuncSetAttribute := none
      _cuLinkComplete := none, _cuModuleUnload := none, _cuLinkDestroy := none
      _cuModuleLoadData := none, _cuLinkCreate := none, _cuModuleGetFunction := none
      _cuModuleGetGlobal := none, _cuLibraryGetKernel := none, _cuLibraryLoadData := none
      _cuLibraryGetGlobal := none, _cuLibraryUnload := none, _cuKernelSetAttribute := none
      _cuCtxGetDevice := none, _cuLinkAddFile := none, _cuLinkAddData := none
      _cuLaunchCooperativeKernel := none, _cuLaunchKernel := none, _cuLaunchKernelEx := none
      _cuTensorMapEncodeTiled := none, _cuMemcpyDtoH := none, _cuDeviceGetAttribute := none
      _cuOccupancyMaxActiveClusters := none } rfl
  exact ⟨⟨1, rfl, rfl⟩, rfl⟩

/-- C4: every forwarding method, over any stubbed symbol table, invokes the
stored function for its operation with exactly the caller's arguments in
the caller's order and returns the stub's result code unchanged (the
release-build extended-launch method included). -/
theorem forwarding_pass_through (w : StubbedWrapper) :
    (∀ error pStr, w.cuGetErrorName error pStr = w._cuGetErrorName error pStr)
    ∧ (∀ error pStr, w.cuGetErrorString error pStr = w._cuGetErrorString error pStr)
    ∧ (∀ hfunc attrib value, w.cuFuncSetAttribute hfunc attrib value
        = w._cuFuncSetAttribute hfunc attrib value)
    ∧ (∀ state cubinOut sizeOut, w.cuLinkComplete state cubinOut sizeOut
        = w._cuLinkComplete state cubinOut sizeOut)
    ∧ (∀ hmod, w.cuModuleUnload hmod = w._cuModuleUnload hmod)
    ∧ (∀ state, w.cuLinkDestroy state = w._cuLinkDestroy state)
    ∧ (∀ module image, w.cuModuleLoadData module image = w._cuModuleLoadData module image)
    ∧ (∀ numOptions options optionValues stateOut,
        w.cuLinkCreate numOptions options optionValues stateOut
          = w._cuLinkCreate numOptions options optionValues stateOut)
    ∧ (∀ hfunc hmod name, w.cuModuleGetFunction hfunc hmod name
        = w._cuModuleGetFunction hfunc hmod name)
    ∧ (∀ dptr bytes hmod name, w.cuModuleGetGlobal dptr bytes hmod name
        = w._cuModuleGetGlobal dptr bytes hmod name)
    ∧ (∀ pKernel library name, w.cuLibraryGetKernel pKernel library name
        = w._cuLibraryGetKernel pKernel library name)
    ∧ (∀ library code jitOptions jitOptionsValues numJitOptions libraryOptions
          libraryOptionValues numLibraryOptions,
        w.cuLibraryLoadData library code jitOptions jitOptionsValues numJitOptions
            libraryOptions libraryOptionValues numLibraryOptions
          = w._cuLibraryLoadData library code jitOptions jitOptionsValues numJitOptions
              libraryOptions libraryOptionValues numLibraryOptions)
    ∧ (∀ dptr bytes library name, w.cuLibraryGetGlobal dptr bytes library name
        = w._cuLibraryGetGlobal dptr bytes library name)
    ∧ (∀ library, w.cuLibraryUnload library = w._cuLibraryUnload library)
    ∧ (∀ attrib val kernel dev, w.cuKernelSetAttribute attrib val kernel dev
        = w._cuKernelSetAttribute attrib val kernel dev)
    ∧ (∀ device, w.cuCtxGetDevice device = w._cuCtxGetDevice device)
    ∧ (∀ state type path numOptions options optionValues,
        w.cuLinkAddFile state type path numOptions options optionValues
          = w._cuLinkAddFile state type path numOptions options optionValues)
    ∧ (∀ state type data size name numOptions options optionValues,
        w.cuLinkAddData state type data size name numOptions options optionValues
          = w._cuLinkAddData state type data size name numOptions options optionValues)
    ∧ (∀ f gX gY gZ bX bY bZ smem hStream kernelParams,
        w.cuLaunchCooperativeKernel f gX gY gZ bX bY bZ smem hStream kernelParams
          = w._cuLaunchCooperativeKernel f gX gY gZ bX bY bZ smem hStream kernelParams)
    ∧ (∀ f gX gY gZ bX bY bZ smem hStream kernelParams extra,
        w.cuLaunchKernel f gX gY gZ bX bY bZ smem hStream kernelParams extra
          = w._cuLaunchKernel f gX gY gZ bX bY bZ smem hStream kernelParams extra)
    ∧ (∀ config f kernelParams extra,
        (w.cuLaunchKernelEx false config f kernelParams extra).2
          = some (w._cuLaunchKernelEx config f kernelParams extra))
    ∧ (∀ tensorMap tensorDataType tensorRank globalAddress globalDim globalStrides
          boxDim elementStrides interleave swizzle l2Promotion oobFill,
        w.cuTensorMapEncodeTiled tensorMap tensorDataType tensorRank globalAddress
            globalDim globalStrides boxDim elementStrides interleave swizzle
            l2Promotion oobFill
          = w._cuTensorMapEncodeTiled tensorMap tensorDataType tensorRank globalAddress
              globalDim globalStrides boxDim elementStrides interleave swizzle
              l2Promotion oobFill)
    ∧ (∀ dstHost srcDevice ByteCount, w.cuMemcpyDtoH dstHost srcDevice ByteCount
        = w._cuMemcpyDtoH dstHost srcDevice ByteCount)
    ∧ (∀ pi attrib dev, w.cuDeviceGetAttribute pi attrib dev
        = w._cuDeviceGetAttribute pi attrib dev)
    ∧ (∀ maxActiveClusters f config,
        w.cuOccupancyMaxActiveClusters maxActiveClusters f config
          = w._cuOccupancyMaxActiveClusters maxActiveClusters f config) :=
  ⟨fun _ _ => rfl, fun _ _ => rfl, fun _ _ _ => rfl, fun _ _ _ => rfl, fun _ => rfl,
    fun _ => rfl, fun _ _ => rfl, fun _ _ _ _ => rfl, fun _ _ _ => rfl,
    fun _ _ _ _ => rfl, fun _ _ _ => rfl, fun _ _ _ _ _ _ _ _ => rfl,
    fun _ _ _ _ => rfl, fun _ => rfl, fun _ _ _ _ => rfl, fun _ => rfl,
    fun _ _ _ _ _ _ => rfl, fun _ _ _ _ _ _ _ _ => rfl,
    fun _ _ _ _ _ _ _ _ _ _ => rfl, fun _ _ _ _ _ _ _ _ _ _ _ => rfl,
    fun _ _ _ _ => rfl, fun _ _ _ _ _ _ _ _ _ _ _ _ => rfl, fun _ _ _ => rfl,
    fun _ _ _ => rfl, fun _ _ _ => rfl⟩

/-- C5: under a debug build, the mutual-exclusivity assertion in
`cuLaunchKernelEx` fires exactly when `kernelParams` and `extra` are both
null or both non-null, and does not fire when exactly one is non-null. -/
theorem launchEx_debug_check (w : StubbedWrapper) (config : CUlaunchConfig)
    (f : CUfunction) (kernelParams extra : Addr) :
    hasAssertFail (w.cuLaunchKernelEx true config f kernelParams extra).1 = true
      ↔ ((kernelParams = 0 ∧ extra = 0) ∨ (kernelParams ≠ 0 ∧ extra ≠ 0)) := by
  cases kernelParams <;> cases extra <;>
    simp [StubbedWrapper.cuLaunchKernelEx, launchExCondition, hasAssertFail]

/-- C9: `cuLaunchKernelEx` performs its observable steps in order — the
debug trace of the launch configuration is always the first event, before
the exclusivity check is evaluated and before the native call is forwarded,
so even a violating argument combination is logged first. -/
theorem launchEx_logs_config_first (w : StubbedWrapper) (debug : Bool)
    (config : CUlaunchConfig) (f : CUfunction) (kernelParams extra : Addr) :
    (w.cuLaunchKernelEx debug config f kernelParams extra).1.head?
        = some (.logTrace (stringify_launch_config config))
    ∧ ((w.cuLaunchKernelEx debug config f kernelParams extra).1
          = [.logTrace (stringify_launch_config config),
             .assertFail "Exactly one of 'extra' and 'kernelParams' should be set."]
        ∨ (w.cuLaunchKernelEx debug config f kernelParams extra).1
          = [.logTrace (stringify_launch_config config),
             .nativeCall config f kernelParams extra]) := by
  unfold StubbedWrapper.cuLaunchKernelEx
  by_cases h : (debug && !launchExCondition kernelParams extra) = true <;>
    simp [h]

/-- C7: the symbol table maps each logical operation to one fixed exported
name; exactly five operations bind an ABI-versioned `_v2` symbol
(`cuLinkCreate`, `cuModuleGetGlobal`, `cuLinkAddFile`, `cuLinkAddData`,
`cuMemcpyDtoH`), and every other operation binds the symbol equal to its
logical name — and the constructed wrapper's slot for each logical
operation holds the loader's resolution of exactly that exported name. -/
theorem symbol_versioning (lib : NativeLibrary) (w : CUDADriverWrapper)
    (h : CUDADriverWrapper.construct lib = .ok w) :
    (∀ p ∈ symbolBindings, w.slot p.1 = some (lib.getSym p.2))
    ∧ symbolBindings.filter (fun p => p.1 != p.2)
        = [("cuLinkCreate", "cuLinkCreate_v2"), ("cuModuleGetGlobal", "cuModuleGetGlobal_v2"),
           ("cuLinkAddFile", "cuLinkAddFile_v2"), ("cuLinkAddData", "cuLinkAddData_v2"),
           ("cuMemcpyDtoH", "cuMemcpyDtoH_v2")]
    ∧ (∀ p ∈ symbolBindings, p.1 ∈ versionSuffixedOps → p.2 = p.1 ++ "_v2")
    ∧ (∀ p ∈ symbolBindings, p.1 ∉ versionSuffixedOps → p.2 = p.1) := by
  obtain ⟨-, h1, h2, h3, h4, h5, h6, h7, h8, h9, h10, h11, h12, h13, h14, h15, h16, h17,
    h18, h19, h20, h21, h22, h23, h24, h25⟩ := construct_populates_every_slot lib w h
  refine ⟨?_, by decide, by decide, by decide⟩
  intro p hp
  fin_cases hp <;>
    simp [CUDADriverWrapper.slot, h1, h2, h3, h4, h5, h6, h7, h8, h9, h10, h11, h12, h13,
      h14, h15, h16, h17, h18, h19, h20, h21, h22, h23, h24, h25]

/-- The wrapper produced by constructing against `openNoSymsLib`. -/
def noSymsWrapper : CUDADriverWrapper :=
  { handle := 1
    _cuGetErrorName := none, _cuGetErrorString := none, _cuFuncSetAttribute := none
    _cuLinkComplete := none, _cuModuleUnload := none, _cuLinkDestroy := none
    _cuModuleLoadData := none, _cuLinkCreate := none, _cuModuleGetFunction := none
    _cuModuleGetGlobal := none, _cuLibraryGetKernel := none, _cuLibraryLoadData := none
    _cuLibraryGetGlobal := none, _cuLibraryUnload := none, _cuKernelSetAttribute := none
    _cuCtxGetDevice := none, _cuLinkAddFile := none, _cuLinkAddData := none
    _cuLaunchCooperativeKernel := none, _cuLaunchKernel := none, _cuLaunchKernelEx := none
    _cuTensorMapEncodeTiled := none, _cuMemcpyDtoH := none, _cuDeviceGetAttribute := none
    _cuOccupancyMaxActiveClusters := none }

/-- Witness for C7 at a concrete environment. -/
theorem symbol_versioning_witness :
    noSymsWrapper.slot "cuMemcpyDtoH" = some (openNoSymsLib.getSym "cuMemcpyDtoH_v2")
    ∧ symbolBindings.filter (fun p => p.1 != p.2)
        = [("cuLinkCreate", "cuLinkCreate_v2"), ("cuModuleGetGlobal", "cuModuleGetGlobal_v2"),
           ("cuLinkAddFile", "cuLinkAddFile_v2"), ("cuLinkAddData", "cuLinkAddData_v2"),
           ("cuMemcpyDtoH", "cuMemcpyDtoH_v2")] := by
  obtain ⟨hslots, hfilter, -, -⟩ := symbol_versioning openNoSymsLib noSymsWrapper rfl
  exact ⟨hslots ("cuMemcpyDtoH", "cuMemcpyDtoH_v2") (by decide), hfilter⟩

/-- String `t` occurs contiguously inside `s`. -/
def containsStr (s t : String) : Prop :=
  ∃ l r, s = l ++ (t ++ r)

/-- The attribute lines of the trace as a list, one entry per attribute,
carrying the loop counter. -/
def attrLinesList : Nat → List CUlaunchAttribute → List String
  | _, [] => []
  | i, a :: rest => attrLine i a :: attrLinesList (i + 1) rest

/-- Rendering the attribute loop equals concatenating its per-attribute
lines. -/
theorem attrLinesFrom_eq_concat (l : List CUlaunchAttribute) (k : Nat) :
    attrLinesFrom k l = (attrLinesList k l).foldr (· ++ ·) "" := by
  induction l generalizing k with
  | nil => rfl
  | cons a rest ih => simp [attrLinesFrom, attrLinesList, ih]

/-- The attribute-line list has one entry per attribute. -/
theorem attrLinesList_length (l : List CUlaunchAttribute) (k : Nat) :
    (attrLinesList k l).length = l.length := by
  induction l generalizing k with
  | nil => rfl
  | cons a rest ih => simp [attrLinesList, ih]

/-- The `i`-th entry of the attribute-line list is the line for the `i`-th
attribute, rendered with loop counter `k + i`. -/
theorem attrLinesList_getD (l : List CUlaunchAttribute) (k i : Nat) (h : i < l.length) :
    (attrLinesList k l).getD i "" = attrLine (k + i) (l.get ⟨i, h⟩) := by
  induction l generalizing k i with
  | nil => simp at h
  | cons a rest ih =>
    cases i with
    | zero => simp [attrLinesList]
    | succ j =>
      have hj : j < rest.length := Nat.lt_of_succ_lt_succ h
      have hk : k + (j + 1) = (k + 1) + j := by omega
      have := ih (k + 1) j hj
      simp only [attrLinesList, List.getD_cons_succ, hk, this]
      simp

/-- The rendered loop output contains the line of every attribute. -/
theorem attrLinesFrom_contains (l : List CUlaunchAttribute) (k i : Nat) (h : i < l.length) :
    ∃ pre post, attrLinesFrom k l = pre ++ (attrLine (k + i) (l.get ⟨i, h⟩) ++ post) := by
  induction l generalizing k i with
  | nil => simp at h
  | cons a rest ih =>
    cases i with
    | zero =>
      refine ⟨"", attrLinesFrom (k + 1) rest, ?_⟩
      simp [attrLinesFrom]
    | succ j =>
      obtain ⟨pre, post, hp⟩ := ih (k + 1) j (Nat.lt_of_succ_lt_succ h)
      refine ⟨attrLine k a ++ pre, post, ?_⟩
      have hk : k + (j + 1) = (k + 1) + j := by omega
      simp [attrLinesFrom, hp, hk, String.append_assoc]

/-- C6: the launch-configuration trace contains the grid-dimensions line,
the block-dimensions line, the shared-memory byte count line and the stream
identity line (`Custom` with its address for a non-null stream, `Default`
for null), plus one description line per attribute; the per-attribute
switch renders a cluster-dimension attribute with its three components, a
priority attribute with its value, and any other attribute id as the
`Unknown Attribute` fallback instead of failing. -/
theorem stringify_trace_contents (c : CUlaunchConfig) :
    containsStr (stringify_launch_config c) (gridLine c)
    ∧ containsStr (stringify_launch_config c) (blockLine c)
    ∧ containsStr (stringify_launch_config c) (sharedMemLine c)
    ∧ containsStr (stringify_launch_config c) (streamLine c)
    ∧ (c.hStream ≠ 0 → streamLine c = "Stream: Custom (0x" ++ hexStr c.hStream ++ ")\n")
    ∧ (c.hStream = 0 → streamLine c = "Stream: Default (0x0)\n")
    ∧ (∀ i (h : i < c.attrs.length),
        containsStr (stringify_launch_config c) (attrLine i (c.attrs.get ⟨i, h⟩)))
    ∧ (∀ attr : CUlaunchAttribute, attr.id = CU_LAUNCH_ATTRIBUTE_CLUSTER_DIMENSION →
        attrBody attr = "Cluster Dimension: (" ++ hexStr attr.value.clusterDimX ++ ", "
          ++ hexStr attr.value.clusterDimY ++ ", " ++ hexStr attr.value.clusterDimZ ++ ")")
    ∧ (∀ attr : CUlaunchAttribute, attr.id = CU_LAUNCH_ATTRIBUTE_PRIORITY →
        attrBody attr = "Priority: " ++ intHexStr attr.value.priority)
    ∧ (∀ attr : CUlaunchAttribute, attr.id ≠ CU_LAUNCH_ATTRIBUTE_CLUSTER_DIMENSION →
        attr.id ≠ CU_LAUNCH_ATTRIBUTE_PRIORITY →
        attrBody attr = "Unknown Attribute (ID=" ++ hexStr attr.id ++ ")") := by
  refine ⟨?_, ?_, ?_, ?_, ?_, ?_, ?_, ?_, ?_, ?_⟩
  · exact ⟨"", blockLine c ++ (sharedMemLine c ++ (streamLine c
      ++ (attrsCountLine c ++ attrLinesFrom 0 c.attrs))), by simp [stringify_launch_config]⟩
  · exact ⟨gridLine c, sharedMemLine c ++ (streamLine c
      ++ (attrsCountLine c ++ attrLinesFrom 0 c.attrs)), rfl⟩
  · exact ⟨gridLine c ++ blockLine c, streamLine c
      ++ (attrsCountLine c ++ attrLinesFrom 0 c.attrs),
      by simp [stringify_launch_config, String.append_assoc]⟩
  · exact ⟨gridLine c ++ blockLine c ++ sharedMemLine c,
      attrsCountLine c ++ attrLinesFrom 0 c.attrs,
      by simp [stringify_launch_config, String.append_assoc]⟩
  · intro h
    have hb : (c.hStream != 0) = true := by simpa using h
    simp only [streamLine, hb, if_true]
    have : ("Stream: " ++ "Custom" ++ " (0x" : String) = "Stream: Custom (0x" := by decide
    rw [String.append_assoc, String.append_assoc, ← String.append_assoc,
      ← String.append_assoc, this]
  · intro h
    have hb : (c.hStream != 0) = false := by simpa using h
    simp only [streamLine, hb, if_false, Bool.false_eq_true, h]
    decide
  · intro i h
    obtain ⟨pre, post, hp⟩ := attrLinesFrom_contains c.attrs 0 i h
    rw [Nat.zero_add] at hp
    exact ⟨gridLine c ++ blockLine c ++ sharedMemLine c ++ streamLine c ++ attrsCountLine c
        ++ pre, post, by simp [stringify_launch_config, hp, String.append_assoc]⟩
  · intro attr h
    simp [attrBody, h]
  · intro attr h
    simp [attrBody, h, CU_LAUNCH_ATTRIBUTE_CLUSTER_DIMENSION, CU_LAUNCH_ATTRIBUTE_PRIORITY]
  · intro attr h1 h2
    simp [attrBody, h1, h2]

/-- Sample cluster-dimension attribute. -/
def sampleClusterAttr : CUlaunchAttribute :=
  { id := CU_LAUNCH_ATTRIBUTE_CLUSTER_DIMENSION
    value := { clusterDimX := 2, clusterDimY := 1, clusterDimZ := 1, priority := 0 } }

/-- Sample priority attribute (negative priority). -/
def samplePriorityAttr : CUlaunchAttribute :=
  { id := CU_LAUNCH_ATTRIBUTE_PRIORITY
    value := { clusterDimX := 0, clusterDimY := 0, clusterDimZ := 0, priority := -5 } }

/-- Sample attribute of an unrecognized kind. -/
def sampleUnknownAttr : CUlaunchAttribute :=
  { id := 7
    value := { clusterDimX := 0, clusterDimY := 0, clusterDimZ := 0, priority := 0 } }

/-- Sample launch configuration with one attribute of each kind. -/
def sampleConfig : CUlaunchConfig :=
  { gridDimX := 16, gridDimY := 2, gridDimZ := 1
    blockDimX := 128, blockDimY := 1, blockDimZ := 1
    sharedMemBytes := 49152, hStream := 3735928559
    attrs := [sampleClusterAttr, samplePriorityAttr, sampleUnknownAttr] }

/-- Witness for C6 at the sample configuration. -/
theorem stringify_trace_contents_witness :
    containsStr (stringify_launch_config sampleConfig) (sharedMemLine sampleConfig)
    ∧ containsStr (stringify_launch_config sampleConfig) (attrLine 0 sampleClusterAttr)
    ∧ attrBody sampleClusterAttr
        = "Cluster Dimension: (" ++ hexStr 2 ++ ", " ++ hexStr 1 ++ ", " ++ hexStr 1 ++ ")"
    ∧ attrBody samplePriorityAttr = "Priority: " ++ intHexStr (-5)
    ∧ attrBody sampleUnknownAttr = "Unknown Attribute (ID=" ++ hexStr 7 ++ ")" := by
  obtain ⟨-, -, hsh, -, -, -, hattr, hcl, hpr, hun⟩ := stringify_trace_contents sampleConfig
  exact ⟨hsh, hattr 0 (by decide), hcl sampleClusterAttr rfl, hpr samplePriorityAttr rfl,
    hun sampleUnknownAttr (by decide) (by decide)⟩

/-- C10: `stringify_launch_config` is a deterministic total function of the
configuration — it is the concatenation of the header lines with a list of
attribute description lines that has exactly `numAttrs` entries, whose
`i`-th entry is the line for the `i`-th attribute carrying index `i`, and
equal configurations produce identical strings. -/
theorem stringify_deterministic_total_indexed (c : CUlaunchConfig) :
    stringify_launch_config c
      = gridLine c ++ (blockLine c ++ (sharedMemLine c ++ (streamLine c
        ++ (attrsCountLine c ++ (attrLinesList 0 c.attrs).foldr (· ++ ·) ""))))
    ∧ (attrLinesList 0 c.attrs).length = c.attrs.length
    ∧ (∀ i (h : i < c.attrs.length),
        (attrLinesList 0 c.attrs).getD i "" = attrLine i (c.attrs.get ⟨i, h⟩))
    ∧ (∀ c₂ : CUlaunchConfig, c = c₂ →
        stringify_launch_config c = stringify_launch_config c₂) :=
  ⟨by simp [stringify_launch_config, attrLinesFrom_eq_concat],
    attrLinesList_length c.attrs 0,
    fun i h => by simpa using attrLinesList_getD c.attrs 0 i h,
    fun c₂ h => by rw [h]⟩

/-- Witness for C10 at the sample configuration. -/
theorem stringify_deterministic_total_indexed_witness :
    (attrLinesList 0 sampleConfig.attrs).length = sampleConfig.attrs.length
    ∧ (attrLinesList 0 sampleConfig.attrs).getD 1 "" = attrLine 1 samplePriorityAttr
    ∧ stringify_launch_config sampleConfig = stringify_launch_config sampleConfig := by
  obtain ⟨-, hlen, hidx, hdet⟩ := stringify_deterministic_total_indexed sampleConfig
  exact ⟨hlen, hidx 1 (by decide), hdet sampleConfig rfl⟩

/-- The lifecycle invariant holds at process start. -/
theorem sInv_init : SInv SingletonState.init := by
  refine ⟨?_, ?_, ?_⟩
  · intro id rc h
    simp [SingletonState.init] at h
  · simp [SingletonState.init]
  · intro j hj
    simp [SingletonState.init] at hj

/-- One lifecycle event preserves the invariant. -/
theorem sInv_applyOp (s : SingletonState) (op : SingletonOp) (hs : SInv s) :
    SInv (applyOp s op) := by
  cases op with
  | get =>
    cases halive : s.alive with
    | none =>
      refine ⟨?_, ?_, ?_⟩
      · intro id rc h
        simp [applyOp, getInstanceSeq, halive] at h
        obtain ⟨rfl, rfl⟩ := h
        simp only [applyOp, getInstanceSeq, halive]
        refine ⟨by omega, fun hin => ?_, by omega⟩
        · exact absurd (hs.closesLt _ hin) (by omega)
      · simpa [applyOp, getInstanceSeq, halive] using hs.closesNodup
      · intro j hj
        simp [applyOp, getInstanceSeq, halive] at hj ⊢
        exact Nat.lt_succ_of_lt (hs.closesLt j hj)
    | some idrc =>
      obtain ⟨id0, rc0⟩ := idrc
      obtain ⟨h1, h2, h3⟩ := hs.aliveFresh id0 rc0 halive
      refine ⟨?_, ?_, ?_⟩
      · intro id rc h
        simp [applyOp, getInstanceSeq, halive] at h
        obtain ⟨rfl, rfl⟩ := h
        exact ⟨by simpa [applyOp, getInstanceSeq, halive] using h1,
          by simpa [applyOp, getInstanceSeq, halive] using h2, by omega⟩
      · simpa [applyOp, getInstanceSeq, halive] using hs.closesNodup
      · intro j hj
        simp [applyOp, getInstanceSeq, halive] at hj ⊢
        exact hs.closesLt j hj
  | release =>
    cases halive : s.alive with
    | none =>
      have : applyOp s .release = s := by simp [applyOp, releaseRef, halive]
      rw [this]
      exact hs
    | some idrc =>
      obtain ⟨id0, rc0⟩ := idrc
      obtain ⟨h1, h2, h3⟩ := hs.aliveFresh id0 rc0 halive
      by_cases hrc : rc0 ≤ 1
      · have hred : applyOp s .release
            = { s with alive := none, closes := s.closes ++ [id0] } := by
          simp [applyOp, releaseRef, halive, hrc]
        rw [hred]
        refine ⟨?_, ?_, ?_⟩
        · intro id rc h
          simp at h
        · simpa [List.nodup_append] using ⟨hs.closesNodup, h2⟩
        · intro j hj
          simp at hj
          rcases hj with hj | hj
          · exact hs.closesLt j hj
          · subst hj; exact h1
      · have hred : applyOp s .release = { s with alive := some (id0, rc0 - 1) } := by
          simp [applyOp, releaseRef, halive, hrc]
        rw [hred]
        refine ⟨?_, ?_, ?_⟩
        · intro id rc h
          simp at h
          obtain ⟨rfl, rfl⟩ := h
          exact ⟨h1, h2, by omega⟩
        · exact hs.closesNodup
        · exact hs.closesLt

/-- The invariant holds after any event sequence. -/
theorem sInv_foldl (ops : List SingletonOp) :
    ∀ s, SInv s → SInv (ops.foldl applyOp s) := by
  induction ops with
  | nil => intro s hs; exact hs
  | cons op rest ih => intro s hs; exact ih _ (sInv_applyOp s op hs)

/-- The invariant holds for every execution from process start. -/
theorem sInv_exec (ops : List SingletonOp) : SInv (execOps ops) :=
  sInv_foldl ops _ sInv_init

/-- C8: after any event sequence ending with the instance down to its last
shared reference, dropping that reference destroys the instance and closes
its library handle exactly once; a subsequent `getInstance` then constructs
a fresh instance — a new `dllOpen` (incrementing the open count) with a new
identity rather than any reuse of the old handle. -/
theorem teardown_then_fresh (ops : List SingletonOp) (id : Nat)
    (h : (execOps ops).alive = some (id, 1)) :
    (releaseRef (execOps ops)).alive = none
    ∧ (releaseRef (execOps ops)).closes.count id = 1
    ∧ (getInstanceSeq (releaseRef (execOps ops))).2 ≠ id
    ∧ (getInstanceSeq (releaseRef (execOps ops))).1.opens = (execOps ops).opens + 1
    ∧ (getInstanceSeq (releaseRef (execOps ops))).1.alive
        = some ((getInstanceSeq (releaseRef (execOps ops))).2, 1) := by
  obtain ⟨hlt, hnotin, -⟩ := (sInv_exec ops).aliveFresh id 1 h
  have hrel : releaseRef (execOps ops)
      = { execOps ops with alive := none, closes := (execOps ops).closes ++ [id] } := by
    simp [releaseRef, h]
  rw [hrel]
  refine ⟨rfl, ?_, ?_, ?_, ?_⟩
  · simp [List.count_append, List.count_eq_zero.mpr hnotin]
  · simp only [getInstanceSeq]
    omega
  · simp only [getInstanceSeq]
  · simp only [getInstanceSeq]

/-- Witness for C8: construct once, release the only reference, request the
singleton again. -/
theorem teardown_then_fresh_witness :
    (releaseRef (execOps [SingletonOp.get])).alive = none
    ∧ (releaseRef (execOps [SingletonOp.get])).closes.count 0 = 1
    ∧ (getInstanceSeq (releaseRef (execOps [SingletonOp.get]))).2 ≠ 0
    ∧ (getInstanceSeq (releaseRef (execOps [SingletonOp.get]))).1.opens
        = (execOps [SingletonOp.get]).opens + 1
    ∧ (getInstanceSeq (releaseRef (execOps [SingletonOp.get]))).1.alive
        = some ((getInstanceSeq (releaseRef (execOps [SingletonOp.get]))).2, 1) :=
  teardown_then_fresh [SingletonOp.get] 0 rfl

/-- The `getInstance` invariant holds initially. -/
theorem giInv_init (n : Nat) : GIInv (GIState.init n) := by
  refine ⟨?_, ?_, ?_, ?_⟩
  · intro t ht
    rcases ht with ht | ht <;> simp [GIState.init] at ht
  · intro t ht
    simp [GIState.init] at ht
  · simp [GIState.init]
  · intro t id ht
    simp [GIState.init] at ht

/-- Every interleaved step of `getInstance` preserves the invariant. -/
theorem giInv_step {n : Nat} {s s' : GIState n} (hstep : GIStep s s') (hi : GIInv s) :
    GIInv s' := by
  cases hstep with
  | fastHit t id hpc hinst =>
    refine ⟨?_, ?_, hi.count, ?_⟩
    · intro u hu
      dsimp only at hu ⊢
      by_cases hut : u = t
      · subst hut
        rw [Function.update_same] at hu
        rcases hu with hu | hu <;> simp at hu
      · rw [Function.update_noteq hut] at hu
        exact hi.lockOwner u hu
    · intro u hu
      dsimp only at hu ⊢
      by_cases hut : u = t
      · subst hut
        rw [Function.update_same] at hu
        simp at hu
      · rw [Function.update_noteq hut] at hu
        exact hi.constructingNone u hu
    · intro u id' hu
      dsimp only at hu ⊢
      by_cases hut : u = t
      · subst hut
        rw [Function.update_same] at hu
        injection hu with h
        rw [← h]
        exact hinst
      · rw [Function.update_noteq hut] at hu
        exact hi.doneInst u id' hu
  | fastMiss t hpc hinst =>
    refine ⟨?_, ?_, hi.count, ?_⟩
    · intro u hu
      dsimp only at hu ⊢
      by_cases hut : u = t
      · subst hut
        rw [Function.update_same] at hu
        rcases hu with hu | hu <;> simp at hu
      · rw [Function.update_noteq hut] at hu
        exact hi.lockOwner u hu
    · intro u hu
      dsimp only at hu ⊢
      by_cases hut : u = t
      · subst hut
        rw [Function.update_same] at hu
        simp at hu
      · rw [Function.update_noteq hut] at hu
        exact hi.constructingNone u hu
    · intro u id' hu
      dsimp only at hu ⊢
      by_cases hut : u = t
      · subst hut
        rw [Function.update_same] at hu
        simp at hu
      · rw [Function.update_noteq hut] at hu
        exact hi.doneInst u id' hu
  | acquire t hpc hmtx =>
    refine ⟨?_, ?_, hi.count, ?_⟩
    · intro u hu
      dsimp only at hu ⊢
      by_cases hut : u = t
      · subst hut
        rfl
      · rw [Function.update_noteq hut] at hu
        exact absurd (hi.lockOwner u hu) (by rw [hmtx]; simp)
    · intro u hu
      dsimp only at hu ⊢
      by_cases hut : u = t
      · subst hut
        rw [Function.update_same] at hu
        simp at hu
      · rw [Function.update_noteq hut] at hu
        exact absurd (hi.lockOwner u (Or.inr hu)) (by rw [hmtx]; simp)
    · intro u id' hu
      dsimp only at hu ⊢
      by_cases hut : u = t
      · subst hut
        rw [Function.update_same] at hu
        simp at hu
      · rw [Function.update_noteq hut] at hu
        exact hi.doneInst u id' hu
  | recheckHit t id hpc hmtx hinst =>
    refine ⟨?_, ?_, hi.count, ?_⟩
    · intro u hu
      dsimp only at hu ⊢
      by_cases hut : u = t
      · subst hut
        rw [Function.update_same] at hu
        rcases hu with hu | hu <;> simp at hu
      · rw [Function.update_noteq hut] at hu
        have h := hi.lockOwner u hu
        rw [hmtx] at h
        injection h with h
        exact absurd h.symm hut
    · intro u hu
      dsimp only at hu ⊢
      by_cases hut : u = t
      · subst hut
        rw [Function.update_same] at hu
        simp at hu
      · rw [Function.update_noteq hut] at hu
        have h := hi.lockOwner u (Or.inr hu)
        rw [hmtx] at h
        injection h with h
        exact absurd h.symm hut
    · intro u id' hu
      dsimp only at hu ⊢
      by_cases hut : u = t
      · subst hut
        rw [Function.update_same] at hu
        injection hu with h
        rw [← h]
        exact hinst
      · rw [Function.update_noteq hut] at hu
        exact hi.doneInst u id' hu
  | recheckMiss t hpc hmtx hinst =>
    refine ⟨?_, ?_, hi.count, ?_⟩
    · intro u hu
      dsimp only at hu ⊢
      by_cases hut : u = t
      · subst hut
        exact hmtx
      · rw [Function.update_noteq hut] at hu
        exact hi.lockOwner u hu
    · intro u hu
      dsimp only at hu ⊢
      by_cases hut : u = t
      · subst hut
        exact hinst
      · rw [Function.update_noteq hut] at hu
        exact hi.constructingNone u hu
    · intro u id' hu
      dsimp only at hu ⊢
      by_cases hut : u = t
      · subst hut
        rw [Function.update_same] at hu
        simp at hu
      · rw [Function.update_noteq hut] at hu
        exact hi.doneInst u id' hu
  | construct t hpc hmtx =>
    have hinstnone : s.inst = none := hi.constructingNone t hpc
    have hzero : s.constructions = 0 := by
      rw [hi.count, hinstnone]
      rfl
    refine ⟨?_, ?_, ?_, ?_⟩
    · intro u hu
      dsimp only at hu ⊢
      by_cases hut : u = t
      · subst hut
        rw [Function.update_same] at hu
        rcases hu with hu | hu <;> simp at hu
      · rw [Function.update_noteq hut] at hu
        have h := hi.lockOwner u hu
        rw [hmtx] at h
        injection h with h
        exact absurd h.symm hut
    · intro u hu
      dsimp only at hu ⊢
      by_cases hut : u = t
      · subst hut
        rw [Function.update_same] at hu
        simp at hu
      · rw [Function.update_noteq hut] at hu
        have h := hi.lockOwner u (Or.inr hu)
        rw [hmtx] at h
        injection h with h
        exact absurd h.symm hut
    · simp [hzero]
    · intro u id' hu
      dsimp only at hu ⊢
      by_cases hut : u = t
      · subst hut
        rw [Function.update_same] at hu
        injection hu with h
        rw [← h]
      · rw [Function.update_noteq hut] at hu
        exact absurd (hi.doneInst u id' hu) (by rw [hinstnone]; simp)

/-- The invariant holds at every reachable state. -/
theorem giInv_reachable {n : Nat} {s : GIState n} (h : GIReachable s) : GIInv s := by
  unfold GIReachable at h
  induction h with
  | refl => exact giInv_init n
  | tail _ hstep ih => exact giInv_step hstep ih

/-- C2: for any number of threads concurrently making their first call to
`getInstance`, in every reachable state in which all threads have returned,
exactly one construction (one library open) has occurred and every thread
holds the same instance. -/
theorem getInstance_once (n : Nat) (hn : 0 < n) (s : GIState n)
    (hr : GIReachable s) (hdone : ∀ t, ∃ id, s.pc t = GIPc.done id) :
    s.constructions = 1 ∧ ∃ id, ∀ t, s.pc t = GIPc.done id := by
  have hi : GIInv s := giInv_reachable hr
  obtain ⟨id0, h0⟩ := hdone ⟨0, hn⟩
  have hinst : s.inst = some id0 := hi.doneInst _ _ h0
  constructor
  · rw [hi.count, hinst]
    rfl
  · refine ⟨id0, fun t => ?_⟩
    obtain ⟨idt, ht⟩ := hdone t
    have h2 : s.inst = some idt := hi.doneInst _ _ ht
    rw [hinst] at h2
    injection h2 with h2
    rw [← h2] at ht
    exact ht

/-- Witness execution, state 0: two threads at their first call. -/
def wit0 : GIState 2 := GIState.init 2

/-- Witness execution, state 1: thread 0 saw an expired weak reference. -/
def wit1 : GIState 2 := { wit0 with pc := Function.update wit0.pc 0 GIPc.waitLock }

/-- Witness execution, state 2: thread 0 holds the mutex. -/
def wit2 : GIState 2 :=
  { wit1 with pc := Function.update wit1.pc 0 GIPc.lockedCheck, mtx := some 0 }

/-- Witness execution, state 3: thread 0 re-checked under the lock. -/
def wit3 : GIState 2 := { wit2 with pc := Function.update wit2.pc 0 GIPc.constructing }

/-- Witness execution, state 4: thread 0 constructed the instance. -/
def wit4 : GIState 2 :=
  { wit3 with pc := Function.update wit3.pc 0 (GIPc.done wit3.constructions),
              mtx := none,
              inst := some wit3.constructions,
              constructions := wit3.constructions + 1 }

/-- Witness execution, state 5: thread 1 hit on the optimistic read. -/
def wit5 : GIState 2 := { wit4 with pc := Function.update wit4.pc 1 (GIPc.done 0) }

/-- Witness for C2 along a concrete interleaving of two threads. -/
theorem getInstance_once_witness :
    wit5.constructions = 1 ∧ ∃ id, ∀ t, wit5.pc t = GIPc.done id := by
  refine getInstance_once 2 (by decide) wit5 ?_ ?_
  · exact Relation.ReflTransGen.tail
      (Relation.ReflTransGen.tail
        (Relation.ReflTransGen.tail
          (Relation.ReflTransGen.tail
            (Relation.ReflTransGen.tail Relation.ReflTransGen.refl
              (GIStep.fastMiss wit0 0 rfl rfl))
            (GIStep.acquire wit1 0 (by decide) rfl))
          (GIStep.recheckMiss wit2 0 (by decide) rfl rfl))
        (GIStep.construct wit3 0 (by decide) rfl))
      (GIStep.fastHit wit4 1 0 (by decide) rfl)
  · intro t
    fin_cases t
    · exact ⟨0, by decide⟩
    · exact ⟨0, by decide⟩

end TensorrtLlm.Common
